import Mathlib

/-!
Verification of the NodeBB Python client's core layer: response
normalization (`nodebb/utils.py`), error classification
(`nodebb/client.py`), configuration (`nodebb/config.py`), the CSRF cache
(`nodebb/api/auth.py`), and the tool registry/dispatcher
(`nodebb/tools.py`).  Python values are embedded as a JSON datatype,
Python dicts as ordered association lists with Python dict-assignment
semantics, raised exceptions as `Except` errors, and the one piece of
object mutation that matters (`prepare_request_body`'s copy-then-insert)
as explicit state passing over a store of dict objects.
-/

namespace NodeBB

/-- JSON-compatible Python values (`None`, `bool`, `int`, `str`, `list`, `dict`). -/
inductive J where
  | null
  | bool (b : Bool)
  | num (n : Int)
  | str (s : String)
  | arr (elems : List J)
  | obj (fields : List (String × J))

mutual

/-- Structural equality of JSON values, mirroring Python `==` on decoded JSON. -/
def J.beq : J → J → Bool
  | J.null, J.null => true
  | J.bool a, J.bool b => a == b
  | J.num a, J.num b => a == b
  | J.str a, J.str b => a == b
  | J.arr as, J.arr bs => J.beqList as bs
  | J.obj as, J.obj bs => J.beqFields as bs
  | _, _ => false

/-- Elementwise equality of JSON lists. -/
def J.beqList : List J → List J → Bool
  | [], [] => true
  | a :: as, b :: bs => J.beq a b && J.beqList as bs
  | _, _ => false

/-- Entrywise equality of JSON dict entries. -/
def J.beqFields : List (String × J) → List (String × J) → Bool
  | [], [] => true
  | (k1, v1) :: as, (k2, v2) :: bs => k1 == k2 && J.beq v1 v2 && J.beqFields as bs
  | _, _ => false

end

/-- Python `o == v` where `o` is `d.get(k)` (possibly `None`, which equals no JSON value
the source ever compares against). -/
def optEq (o : Option J) (v : J) : Bool :=
  match o with
  | none => false
  | some x => J.beq x v

/-- A Python dict holding JSON values, as an ordered association list with unique keys
(uniqueness is maintained by `dictSet`, mirroring Python dict assignment). -/
abbrev Dict := List (String × J)

/-- First binding of key `k`, mirroring Python `d[k]` / `d.get(k)`. -/
def dictLookup : Dict → String → Option J
  | [], _ => none
  | (k, v) :: rest, key => if k = key then some v else dictLookup rest key

/-- Python `k in d`. -/
def dictContains (d : Dict) (k : String) : Bool :=
  (dictLookup d k).isSome

/-- Python `d.get(k, default)`. -/
def dictGetD (d : Dict) (k : String) (default : J) : J :=
  (dictLookup d k).getD default

/-- Python `d[k] = v`: replace the binding in place if the key exists, else append. -/
def dictSet : Dict → String → J → Dict
  | [], key, v => [(key, v)]
  | (k, w) :: rest, key, v =>
    if k = key then (k, v) :: rest else (k, w) :: dictSet rest key v

/-- Python `list(d.keys())`. -/
def dictKeys (d : Dict) : List String :=
  d.map Prod.fst

/-- Python truthiness of a JSON value. -/
def truthy : J → Bool
  | J.null => false
  | J.bool b => b
  | J.num n => n ≠ 0
  | J.str s => s ≠ ""
  | J.arr elems => ¬ elems.isEmpty
  | J.obj fields => ¬ fields.isEmpty

/-- Python truthiness of an `Optional[str]` field (`None` and `""` are falsy). -/
def strTruthy : Option String → Bool
  | none => false
  | some s => s ≠ ""

/-- The typed error taxonomy of `nodebb/exceptions.py` (subclasses of `NodeBBError`).
`apiError` keeps its message as a JSON value because `client.py` passes
`status.get("message", "API error")`, which need not be a string. -/
inductive NBError where
  | authenticationError (message : String)
  | privilegeError (message : String)
  | resourceNotFoundError (message : String)
  | rateLimitError (message : String) (retry_after : Option Int)
  | validationError (message : String) (errors : J)
  | apiError (message : J) (status_code : Option Int)
  | networkError (message : String)
  | configurationError (message : String)

/-- Exceptions observable from the embedded code: the typed `NodeBBError` hierarchy
plus the builtin Python exceptions the source raises or catches. -/
inductive PyError where
  | nodebb (e : NBError)
  | valueError (message : String)
  | typeError (message : String)
  | jsonDecodeError (message : String)
  | attributeError (message : String)

/-- `NodeBBConfig` (config.py).  `base_url` is stored already normalized
(`__post_init__` strips trailing slashes). -/
structure NodeBBConfig where
  base_url : String
  username : Option String := none
  password : Option String := none
  user_token : Option String := none
  master_token : Option String := none
  timeout : Int := 30
  verify_ssl : Bool := true
  uid : Option Int := none
deriving DecidableEq, Repr

/-- `NodeBBConfig.auth_type` (config.py lines 61-68): `master` wins when both
tokens are set; Python `if self.master_token:` is a truthiness test. -/
def NodeBBConfig.auth_type (config : NodeBBConfig) : String :=
  if strTruthy config.master_token then "master"
  else if strTruthy config.user_token then "user"
  else "none"

/-- `NodeBBConfig.validate` (config.py lines 139-153).  The source raises plain
`ValueError`, not `ConfigurationError`. -/
def NodeBBConfig.validate (config : NodeBBConfig) : Except PyError Unit :=
  if config.base_url = "" then
    .error (.valueError "base_url is required")
  else if strTruthy config.master_token ∧ config.uid = none then
    .error (.valueError "uid is required when using master_token")
  else
    .ok ()

/-- `build_headers` (utils.py lines 66-86): fixed headers, then
`Authorization: Bearer <user_token>` if truthy, else the master token. -/
def build_headers (config : NodeBBConfig) : List (String × String) :=
  let headers := [("Accept", "application/json"),
                  ("Content-Type", "application/json"),
                  ("User-Agent", "NodeBB-Python-Client/1.0.0")]
  if strTruthy config.user_token then
    headers ++ [("Authorization", "Bearer " ++ config.user_token.getD "")]
  else if strTruthy config.master_token then
    headers ++ [("Authorization", "Bearer " ++ config.master_token.getD "")]
  else
    headers

/-- First header with the given name. -/
def headerLookup : List (String × String) → String → Option String
  | [], _ => none
  | (k, v) :: rest, key => if k = key then some v else headerLookup rest key

/-- `parse_response` (utils.py lines 109-138).  Non-dict bodies and bodies whose
`status` is not a dict pass through unchanged; `status.code == "ok"` unwraps
`response` (default `{}`); any other status dict yields the returned value
`{"error": message, "status": status}` — the function never raises. -/
def parse_response (response_data : J) : J :=
  match response_data with
  | J.obj fields =>
    if dictContains fields "status" then
      match dictGetD fields "status" (J.obj []) with
      | J.obj statusFields =>
        if ¬ optEq (dictLookup statusFields "code") (J.str "ok") then
          J.obj [("error", dictGetD statusFields "message" (J.str "Unknown error")),
                 ("status", J.obj statusFields)]
        else
          dictGetD fields "response" (J.obj [])
      | _ => J.obj fields
    else J.obj fields
  | other => other

/-- The body of the inner `try` in `HTTPClient._handle_response`
(client.py lines 93-106), reached for status ≥ 400 other than
401/403/404/429: `.ok ()` means the block fell through without raising,
`.error e` is the exception it raised (`response.json()` failing, the
explicit `ValidationError`/`APIError` raises, or the `AttributeError` from
`status.get(...)` when `status` is not a dict).  The `body` argument is the
decoded JSON body, `none` when the payload is not parseable JSON. -/
def errorBodyCheck (statusCode : Int) (body : Option J) : Except PyError Unit :=
  match body with
  | none => .error (.jsonDecodeError "Expecting value")
  | some result =>
    match result with
    | J.obj fields =>
      if dictContains fields "status" then
        match dictGetD fields "status" J.null with
        | J.obj statusFields =>
          if optEq (dictLookup statusFields "code") (J.str "bad-params") then
            .error (.nodebb (.validationError "Invalid parameters"
              (dictGetD statusFields "params" (J.arr []))))
          else
            .error (.nodebb (.apiError
              (dictGetD statusFields "message" (J.str "API error")) (some statusCode)))
        | _ => .error (.attributeError "object has no attribute get")
      else .ok ()
    | _ => .ok ()

/-- `HTTPClient._handle_response` (client.py lines 63-122) on an HTTP response
that arrived (transport errors excluded): `statusCode` the HTTP status,
`endpoint` the request path, `body` the decoded JSON body (`none` when the
payload is not parseable JSON).  Mirrors the source's control flow: the
401/403/404/429 checks come first; for other statuses ≥ 400 the inner
`try` block runs and `except Exception:` replaces whatever it raised with a
generic `APIError`; when it falls through, and for statuses < 400, the body
is parsed and fed to `parse_response`; the outer
`except json.JSONDecodeError` turns decode failures into an `APIError`. -/
def handle_response (statusCode : Int) (endpoint : String) (body : Option J) :
    Except PyError J :=
  let tryBlock : Except PyError J :=
    if statusCode = 401 then
      .error (.nodebb (.authenticationError "Invalid or missing authentication token"))
    else if statusCode = 403 then
      .error (.nodebb (.privilegeError "Insufficient privileges for this operation"))
    else if statusCode = 404 then
      .error (.nodebb (.resourceNotFoundError ("Resource not found: " ++ endpoint)))
    else if statusCode = 429 then
      .error (.nodebb (.rateLimitError "Rate limit exceeded" none))
    else
      let step1 : Except PyError Unit :=
        if statusCode ≥ 400 then
          match errorBodyCheck statusCode body with
          | .error _ =>
            .error (.nodebb (.apiError
              (J.str ("API error (" ++ toString statusCode ++ ")")) (some statusCode)))
          | .ok () => .ok ()
        else .ok ()
      step1.bind fun _ =>
        match body with
        | none => .error (.jsonDecodeError "Expecting value")
        | some result => .ok (parse_response result)
  match tryBlock with
  | .error (.jsonDecodeError e) =>
    .error (.nodebb (.apiError (J.str ("Invalid JSON response: " ++ e)) none))
  | other => other

/-! ## A store of dict objects

`prepare_request_body` promises not to mutate its caller's dict.  To make that
observable, Python dict objects are modelled as references into a store; dict
assignment mutates the referenced dict in place. -/

/-- Indexing with a default, recursively (Python list indexing on the heap). -/
def listGetD : List Dict → Nat → Dict
  | [], _ => []
  | d :: _, 0 => d
  | _ :: rest, n + 1 => listGetD rest n

/-- Replace the element at an index, leaving other positions untouched. -/
def listSet : List Dict → Nat → Dict → List Dict
  | [], _, _ => []
  | _ :: rest, 0, d => d :: rest
  | x :: rest, n + 1, d => x :: listSet rest n d

/-- A heap of Python dict objects; a reference is an index into `dicts`. -/
structure Store where
  dicts : List Dict

/-- Allocate a fresh dict object, returning the new store and its reference. -/
def Store.alloc (s : Store) (d : Dict) : Store × Nat :=
  (⟨s.dicts ++ [d]⟩, s.dicts.length)

/-- Dereference a dict object. -/
def Store.read (s : Store) (r : Nat) : Dict :=
  listGetD s.dicts r

/-- Python `d[k] = v` on the dict object behind reference `r`. -/
def Store.setKey (s : Store) (r : Nat) (k : String) (v : J) : Store :=
  ⟨listSet s.dicts r (dictSet (listGetD s.dicts r) k v)⟩

/-- `prepare_request_body` (utils.py lines 89-106): `data` is the caller's dict
reference (`none` for Python `None`).  For a truthy `master_token` with `uid`
set, it allocates `dict(data)` (a shallow copy) and sets `_uid` on the copy;
otherwise the caller's object is returned as-is.  Returns the updated store
and the reference to the outgoing body. -/
def prepare_request_body (s : Store) (data : Option Nat) (config : NodeBBConfig) :
    Store × Nat :=
  let start : Store × Nat :=
    match data with
    | none => s.alloc []
    | some r => (s, r)
  match strTruthy config.master_token, config.uid with
  | true, some u =>
    let copied := start.1.alloc (start.1.read start.2)
    (copied.1.setKey copied.2 "_uid" (J.num u), copied.2)
  | _, _ => start

/-! ## WriteAPI.create_topic -/

/-- A request issued through the raw underlying `httpx` client
(`self._client.client.post`), bypassing `HTTPClient.post`. -/
structure RawPost where
  url : String
  json : Dict
  headers : List (String × String)

/-- The outgoing request built by `WriteAPI.create_topic` (write.py lines
47-113): the JSON body is assembled from the arguments and posted through the
raw `httpx` client with a CSRF header, bypassing `HTTPClient.post` and hence
`prepare_request_body`.  `csrf_token` is the value `auth.get_csrf_token()`
returned. -/
def create_topic_request (config : NodeBBConfig) (csrf_token : String) (cid : Int)
    (title content : String) (tags : Option (List String)) (timestamp : Option Int) :
    RawPost :=
  let data : Dict := [("cid", J.num cid), ("title", J.str title), ("content", J.str content)]
  let data : Dict :=
    match tags with
    | some ts => if ts.isEmpty then data else dictSet data "tags" (J.arr (ts.map J.str))
    | none => data
  let data : Dict :=
    match timestamp with
    | some t => dictSet data "timestamp" (J.num t)
    | none => data
  { url := config.base_url ++ "/api/v3/topics/",
    json := data,
    headers := [("Content-Type", "application/json"), ("x-csrf-token", csrf_token)] }

/-! ## AuthAPI CSRF-token cache -/

/-- The mutable state of `AuthAPI` relevant to the CSRF cache:
`_csrf_token` starts as Python `None` (here `J.null`). -/
structure AuthState where
  csrf_token : J := J.null

/-- Outcome of one `get_csrf_token` invocation: the returned value, the
state after the call, and how many GET requests to `/api/config` were issued. -/
structure CsrfOutcome where
  value : J
  state : AuthState
  network_calls : Nat

/-- `AuthAPI.get_csrf_token` (auth.py lines 46-71) when the GET to
`/api/config` succeeds: `configResult` is the normalized value that
`self._client.get("/api/config")` returned.  A truthy cached token is
returned without any network call; otherwise one GET is issued and the
token is cached only when the result is a dict containing `"csrf_token"`;
in every other case `""` is returned and nothing is cached. -/
def get_csrf_token (st : AuthState) (configResult : J) : CsrfOutcome :=
  if truthy st.csrf_token then
    { value := st.csrf_token, state := st, network_calls := 0 }
  else
    match configResult with
    | J.obj fields =>
      if dictContains fields "csrf_token" then
        let tok := dictGetD fields "csrf_token" J.null
        { value := tok, state := { csrf_token := tok }, network_calls := 1 }
      else
        { value := J.str "", state := st, network_calls := 1 }
    | _ => { value := J.str "", state := st, network_calls := 1 }

/-! ## Tool registry and dispatcher (tools.py) -/

/-- The keyword-parameter signature of a client method bound in the dispatch
table: names that must be supplied and names with a default value.  Python
binds `method(**args)` successfully exactly when every required name is
present and every supplied name is a parameter. -/
structure ToolSig where
  required : List String
  optional : List String

/-- The `function.name` fields of the 46 descriptors returned by
`get_tool_definitions` (tools.py lines 15-986), in source order. -/
def get_tool_definitions_names : List String :=
  ["get_notifications", "get_unread_count", "get_unread_topics", "get_recent_posts",
   "get_topic", "get_categories", "get_category", "get_user", "get_user_by_username",
   "search_users", "get_config", "get_post",
   "create_topic", "create_reply", "edit_post", "delete_post", "delete_topic",
   "vote_post", "unvote_post", "bookmark_post", "unbookmark_post", "follow_topic",
   "unfollow_topic", "mark_topic_read", "mark_topic_unread",
   "set_topic_state", "pin_topic", "unpin_topic", "update_topic_tags",
   "add_topic_tag", "remove_topic_tags",
   "move_post", "restore_post", "soft_delete_post", "get_post_replies",
   "get_chats", "create_chat_room", "send_chat_message", "get_chat_messages",
   "rename_room", "get_chat_room_detail", "add_users_to_chat", "leave_chat_room",
   "upload_image", "upload_file", "get_forum_updates"]

/-- `ToolExecutor._build_method_map` (tools.py lines 1014-1080): each tool name
paired with the keyword signature of the client method it binds, transcribed
from the bound method definitions in `api/read.py`, `api/write.py`,
`api/chat.py` and `api/upload.py` (`self` excluded; the final entry binds a
zero-argument lambda). -/
def build_method_map : List (String × ToolSig) :=
  [("get_notifications", ⟨[], ["filter", "page"]⟩),
   ("get_unread_count", ⟨[], []⟩),
   ("get_unread_topics", ⟨[], ["start", "per_page", "filter"]⟩),
   ("get_recent_posts", ⟨[], ["term", "page"]⟩),
   ("get_topic", ⟨["tid"], ["slug", "post_index"]⟩),
   ("get_categories", ⟨[], []⟩),
   ("get_category", ⟨["cid"], ["slug", "topic_index"]⟩),
   ("get_user", ⟨["uid"], []⟩),
   ("get_user_by_username", ⟨["userslug"], []⟩),
   ("search_users", ⟨[], ["query", "section", "page"]⟩),
   ("get_config", ⟨[], []⟩),
   ("get_post", ⟨["pid"], []⟩),
   ("create_topic", ⟨["cid", "title", "content"], ["tags", "timestamp"]⟩),
   ("create_reply", ⟨["tid", "content"], ["to_pid"]⟩),
   ("edit_post", ⟨["pid", "content"], ["title"]⟩),
   ("delete_post", ⟨["pid"], []⟩),
   ("delete_topic", ⟨["tid"], []⟩),
   ("vote_post", ⟨["pid"], ["delta"]⟩),
   ("unvote_post", ⟨["pid"], []⟩),
   ("bookmark_post", ⟨["pid"], []⟩),
   ("unbookmark_post", ⟨["pid"], []⟩),
   ("follow_topic", ⟨["tid"], []⟩),
   ("unfollow_topic", ⟨["tid"], []⟩),
   ("mark_topic_read", ⟨["tid"], []⟩),
   ("mark_topic_unread", ⟨["tid"], []⟩),
   ("set_topic_state", ⟨["tid", "state"], []⟩),
   ("pin_topic", ⟨["tid"], ["expiry"]⟩),
   ("unpin_topic", ⟨["tid"], []⟩),
   ("update_topic_tags", ⟨["tid", "tags"], []⟩),
   ("add_topic_tag", ⟨["tid", "tag"], []⟩),
   ("remove_topic_tags", ⟨["tid"], []⟩),
   ("move_post", ⟨["pid", "tid"], []⟩),
   ("restore_post", ⟨["pid"], []⟩),
   ("soft_delete_post", ⟨["pid"], []⟩),
   ("get_post_replies", ⟨["pid"], ["start", "direction", "per_page"]⟩),
   ("get_chats", ⟨[], ["start", "per_page"]⟩),
   ("create_chat_room", ⟨["uids"], []⟩),
   ("send_chat_message", ⟨["room_id", "message"], ["to_mid"]⟩),
   ("get_chat_messages", ⟨["room_id"], ["start", "count"]⟩),
   ("get_chat_room_detail", ⟨["room_id"], []⟩),
   ("add_users_to_chat", ⟨["room_id", "uids"], []⟩),
   ("leave_chat_room", ⟨["room_id"], ["uids"]⟩),
   ("rename_room", ⟨["room_id", "name"], []⟩),
   ("upload_image", ⟨["file_path"], []⟩),
   ("upload_file", ⟨["file_path"], []⟩),
   ("get_forum_updates", ⟨[], []⟩)]

/-- The keys of the dispatch table, in source order. -/
def method_map_names : List String :=
  build_method_map.map Prod.fst

/-- Python `name in self._method_map` / `self._method_map[name]`. -/
def lookupTool (name : String) : Option ToolSig :=
  (build_method_map.find? (fun p => p.1 = name)).map Prod.snd

/-- Whether `method(**args)` binds without raising `TypeError`: all required
names supplied, no unexpected names. -/
def bindsOk (sig : ToolSig) (argNames : List String) : Bool :=
  sig.required.all (fun r => argNames.contains r) &&
  argNames.all (fun a => sig.required.contains a || sig.optional.contains a)

/-- Behaviour of the bodies of the bound client methods, abstracted: given the
tool name and the bound keyword arguments, a body performs a list of
transport calls (endpoint strings) and returns a value or raises. -/
abbrev ToolBodies := String → Dict → List String × Except PyError J

/-- Python `method(**args)`: keyword binding happens before the body runs; a
binding failure raises `TypeError` with no transport call, otherwise the
body executes. -/
def call_with_kwargs (sig : ToolSig) (body : Dict → List String × Except PyError J)
    (args : Dict) : List String × Except PyError J :=
  if bindsOk sig (dictKeys args) then body args
  else ([], .error (.typeError "unexpected or missing keyword argument"))

/-- `ToolExecutor.execute` (tools.py lines 1082-1114): unknown names raise
`ValueError` listing the available tools; then `method(**args)` runs under
`except TypeError`, which re-raises as the invalid-arguments `ValueError`;
anything else the call raises propagates unchanged. -/
def ToolExecutor.execute (bodies : ToolBodies) (name : String) (args : Dict) :
    List String × Except PyError J :=
  match lookupTool name with
  | none =>
    ([], .error (.valueError ("Unknown tool: " ++ name ++ ". Available tools: " ++
      String.intercalate ", " method_map_names)))
  | some sig =>
    match call_with_kwargs sig (bodies name) args with
    | (calls, .error (.typeError e)) =>
      (calls, .error (.valueError ("Invalid arguments for tool " ++ name ++ ": " ++ e)))
    | r => r

/-! ## get_forum_updates (tools.py lines 1282-1366)

The aggregate tool's body, embedded so that the dispatcher's behaviour on a
body-raised builtin exception is about the real program: the two read
sub-calls are degraded inside their `try` blocks, but `topics[:10]` at
tools.py line 1320 runs outside any `try` and raises `TypeError` when the
server's `topics` field is not a list. -/

/-- Python `x.get(k, default)`: defined on dicts; any other value has no
`get` attribute. -/
def pyGet (x : J) (k : String) (default : J) : Except PyError J :=
  match x with
  | J.obj fields => .ok (dictGetD fields k default)
  | _ => .error (.attributeError "object has no attribute get")

/-- Python `x.replace(a, b)`: defined on strings; any other value has no
`replace` attribute. -/
def pyReplace (x : J) (a b : String) : Except PyError J :=
  match x with
  | J.str s => .ok (J.str (s.replace a b))
  | _ => .error (.attributeError "object has no attribute replace")

/-- Python `[f(t) for t in xs[:10]]`: a list slices and iterates; a string
slices and iterates its characters, on which the loop bodies below
immediately raise `AttributeError` (their first step is `.get`, and no
character is a dict), so a non-empty string shortcuts to that error; any
other value raises `TypeError` at the slice itself. -/
def iterSlice10 (xs : J) (f : J → Except PyError J) : Except PyError (List J) :=
  match xs with
  | J.arr elems => (elems.take 10).mapM f
  | J.str s => if s.isEmpty then .ok [] else .error (.attributeError "object has no attribute get")
  | _ => .error (.typeError "object is not subscriptable")

/-- The simplified-topic dict built per unread topic (tools.py lines
1321-1328). -/
def simple_topic_of (t : J) : Except PyError J := do
  let tid ← pyGet t "tid" J.null
  let title ← pyGet t "title" J.null
  let user ← pyGet t "user" (J.obj [])
  let author ← pyGet user "username" J.null
  let category ← pyGet t "category" (J.obj [])
  let catName ← pyGet category "name" J.null
  let replies ← pyGet t "postcount" J.null
  let time ← pyGet t "timestampISO" J.null
  pure (J.obj [("tid", tid), ("title", title), ("author", author),
               ("category", catName), ("replies", replies), ("time", time)])

/-- The simplified-notification dict built per notification (tools.py lines
1333-1340). -/
def simple_notification_of (n : J) : Except PyError J := do
  let ntype ← pyGet n "type" J.null
  let bodyShort ← pyGet n "bodyShort" (J.str "")
  let bodyClean ← pyReplace bodyShort "<strong>" ""
  let bodyClean ← pyReplace bodyClean "</strong>" ""
  let user ← pyGet n "user" (J.obj [])
  let username ← pyGet user "username" J.null
  let path ← pyGet n "path" J.null
  let readFlag ← pyGet n "read" J.null
  let time ← pyGet n "datetimeISO" J.null
  pure (J.obj [("type", ntype), ("body", bodyClean), ("user", username),
               ("path", path), ("read", readFlag), ("time", time)])

/-- `sum(1 for n in notifications if not n.get("read", True))` (tools.py line
1313): a non-list raises inside the enclosing `try` (`TypeError` when not
iterable; for a non-empty string the first character's `.get` raises
`AttributeError` — same observable fallback). -/
def sumUnread (notifications : J) : Except PyError Int :=
  match notifications with
  | J.arr elems =>
    elems.foldlM (fun acc n => do
      let r ← pyGet n "read" (J.bool true)
      pure (if truthy r then acc else acc + 1)) 0
  | J.str s => if s.isEmpty then .ok 0 else .error (.attributeError "object has no attribute get")
  | _ => .error (.typeError "object is not iterable")

/-- A typed failure raised by a sub-client call, seen as a Python exception. -/
def liftNB (r : Except NBError J) : Except PyError J :=
  match r with
  | .ok v => .ok v
  | .error e => .error (.nodebb e)

/-- The first `try` block (tools.py lines 1300-1307): the unread sub-call's
result, degraded to `(0, [])` by `except Exception`.  Returns
`(unread_count, topics)`. -/
def forumUpdatesUnreadBlock (unreadResult : Except NBError J) : J × J :=
  match (do
      let r ← liftNB unreadResult
      let c ← pyGet r "topicCount" (J.num 0)
      let t ← pyGet r "topics" (J.arr [])
      pure (c, t) : Except PyError (J × J)) with
  | .ok ct => ct
  | .error _ => (J.num 0, J.arr [])

/-- The second `try` block (tools.py lines 1309-1316): notifications and the
unread count, degraded to `([], 0)` by `except Exception`.  Every non-list
`notifications` value makes the generator expression raise inside the `try`
except the empty string, which behaves observably like the empty list. -/
def forumUpdatesNotifBlock (notifResult : Except NBError J) : List J × Int :=
  match (do
      let r ← liftNB notifResult
      let ns ← pyGet r "notifications" (J.arr [])
      let cnt ← sumUnread ns
      match ns with
      | J.arr elems => pure (elems, cnt)
      | _ => pure ([], cnt)
      : Except PyError (List J × Int)) with
  | .ok nc => nc
  | .error _ => ([], 0)

/-- Python single-quote character, for `repr` of strings. -/
def squote : String := String.singleton (Char.ofNat 39)

mutual

/-- Python `repr()` of a JSON value (embedded quotes inside strings are not
re-escaped; no summary theorem below depends on that). -/
def pyRepr : J → String
  | J.null => "None"
  | J.bool b => if b then "True" else "False"
  | J.num n => toString n
  | J.str s => squote ++ s ++ squote
  | J.arr elems => "[" ++ pyReprList elems ++ "]"
  | J.obj fields => "\x7b" ++ pyReprFields fields ++ "\x7d"

/-- Comma-joined reprs of list elements. -/
def pyReprList : List J → String
  | [] => ""
  | [x] => pyRepr x
  | x :: rest => pyRepr x ++ ", " ++ pyReprList rest

/-- Comma-joined reprs of dict entries. -/
def pyReprFields : List (String × J) → String
  | [] => ""
  | [(k, v)] => squote ++ k ++ squote ++ ": " ++ pyRepr v
  | (k, v) :: rest => squote ++ k ++ squote ++ ": " ++ pyRepr v ++ ", " ++ pyReprFields rest

end

/-- Python `str()` as interpolated by the summary's f-strings. -/
def pyStr : J → String
  | J.str s => s
  | other => pyRepr other

/-- Python `t[k]` on the simplified dicts built above, whose keys are always
present (a missing key would raise `KeyError`, unreachable here). -/
def dictItem (x : J) (k : String) : J :=
  match x with
  | J.obj fields => dictGetD fields k J.null
  | _ => J.null

/-- Python `n["body"][:30]` where `body` is a string by construction. -/
def pyStrSlice30 (x : J) : String :=
  match x with
  | J.str s => s.take 30
  | other => pyStr other

/-- The human-readable summary assembled at tools.py lines 1343-1357. -/
def forumUpdatesSummary (unread_count : J) (notifLen : Int) (unread_notif_count : Int)
    (simple_topics simple_notifications : List J) : String :=
  let parts := ["论坛更新摘要:",
                "- 未读主题: " ++ pyStr unread_count ++ " 个",
                "- 通知: " ++ toString notifLen ++ " 个 (" ++
                  toString unread_notif_count ++ " 个未读)"]
  let parts := if simple_topics.isEmpty then parts else
    parts ++ ["\n最近未读主题:"] ++
      (simple_topics.take 5).map (fun t =>
        "  • [" ++ pyStr (dictItem t "tid") ++ "] " ++ pyStr (dictItem t "title") ++
        " - " ++ pyStr (dictItem t "author"))
  let parts := if simple_notifications.isEmpty then parts else
    parts ++ ["\n最近通知:"] ++
      (simple_notifications.take 5).map (fun n =>
        "  " ++ (if truthy (dictItem n "read") then "  " else "🆕") ++ " [" ++
        pyStr (dictItem n "type") ++ "] " ++ pyStrSlice30 (dictItem n "body") ++ "...")
  String.intercalate "\n" parts

/-- `get_forum_updates(client)` (tools.py lines 1282-1366), given the
normalized outcomes of its two read sub-calls.  The first component lists
the transport calls made: both GETs always happen, since a sub-call failure
is degraded inside its `try` block.  The slice `topics[:10]` and the later
loops run outside any `try`, so their builtin exceptions propagate to the
caller (i.e. to `ToolExecutor.execute`). -/
def get_forum_updates_body (unreadResult notifResult : Except NBError J) :
    List String × Except PyError J :=
  let calls := ["/api/unread", "/api/notifications"]
  let uc := forumUpdatesUnreadBlock unreadResult
  let unread_count := uc.1
  let topics := uc.2
  let nb := forumUpdatesNotifBlock notifResult
  let notifications := nb.1
  let unread_notif_count := nb.2
  let result : Except PyError J := do
    let simple_topics ← iterSlice10 topics simple_topic_of
    let simple_notifications ← (notifications.take 10).mapM simple_notification_of
    pure (J.obj [("unread_count", unread_count),
                 ("notification_count", J.num notifications.length),
                 ("unread_notification_count", J.num unread_notif_count),
                 ("topics", J.arr simple_topics),
                 ("notifications", J.arr simple_notifications),
                 ("summary", J.str (forumUpdatesSummary unread_count
                   notifications.length unread_notif_count
                   simple_topics simple_notifications))])
  (calls, result)

/-- A concrete bodies assignment: the real `get_forum_updates` body run
against a transport whose unread payload is the malformed
`{"topicCount": 3, "topics": 5}` and whose notifications payload is empty;
every other tool is an inert stub that no theorem below ever invokes. -/
def bodiesWithForumUpdates : ToolBodies :=
  fun name _ =>
    if name = "get_forum_updates" then
      get_forum_updates_body
        (.ok (J.obj [("topicCount", J.num 3), ("topics", J.num 5)]))
        (.ok (J.obj [("notifications", J.arr [])]))
    else ([], .ok J.null)

/-! ## Concrete values used in evaluations -/

/-- A master-token configuration without an acting uid. -/
def cfgMasterNoUid : NodeBBConfig :=
  { base_url := "https://forum.example.com", master_token := some "mtok" }

/-- A validated master-token configuration (uid 5). -/
def cfgMasterUid5 : NodeBBConfig :=
  { base_url := "https://forum.example.com", master_token := some "mtok", uid := some 5 }

/-- A configuration with both tokens set (uid 7). -/
def cfgBothTokens : NodeBBConfig :=
  { base_url := "https://forum.example.com", user_token := some "utok",
    master_token := some "mtok", uid := some 7 }

/-- A store holding one caller dict: the create-topic payload. -/
def storeCreateTopic : Store :=
  ⟨[[("cid", J.num 1), ("title", J.str "T"), ("content", J.str "hello")]]⟩

/-! ## Helper lemmas -/

theorem listGetD_append_self (l : List Dict) (d : Dict) :
    listGetD (l ++ [d]) l.length = d := by
  induction l with
  | nil => rfl
  | cons a t ih => simpa [listGetD] using ih

theorem listGetD_set_self (l : List Dict) (n : Nat) (d : Dict) (h : n < l.length) :
    listGetD (listSet l n d) n = d := by
  induction l generalizing n with
  | nil => simp at h
  | cons a t ih =>
    cases n with
    | zero => rfl
    | succ m => exact ih m (by simpa using h)

/-- Under a truthy master token with a uid, the body handed to the transport is
the caller's dict with `_uid` set. -/
theorem prepare_request_body_master_read (s : Store) (r : Nat) (config : NodeBBConfig)
    (u : Int) (hm : strTruthy config.master_token = true) (huid : config.uid = some u) :
    ((prepare_request_body s (some r) config).1).read ((prepare_request_body s (some r) config).2)
      = dictSet (s.read r) "_uid" (J.num u) := by
  unfold prepare_request_body
  rw [hm, huid]
  simp only [Store.alloc, Store.setKey, Store.read]
  rw [listGetD_append_self]
  rw [listGetD_set_self]
  simp

/-! ## Claim theorems -/

/-- C1: the claim says a ≥400 response (other than 401/403/404/429) with
`status.code == "bad-params"` raises `ValidationError` carrying
`status.params`, and every other such response raises `APIError`, never
returning a success value.  Evaluating the embedded handler at the failing
inputs: at 400 with a bad-params body the `except Exception:` at
client.py line 107 swallows the code's own `ValidationError` and substitutes
the generic `APIError`, and at 500 with a dict body lacking `"status"` the
handler falls through and returns the body as a success. -/
theorem C1_error_branch_evaluation :
    handle_response 400 "/api/v3/topics/"
        (some (J.obj [("status", J.obj [("code", J.str "bad-params"),
                                        ("params", J.arr [J.str "cid"])])]))
      = .error (.nodebb (.apiError (J.str "API error (400)") (some 400))) ∧
    handle_response 500 "/api/x" (some (J.obj [("foo", J.num 1)]))
      = .ok (J.obj [("foo", J.num 1)]) :=
  ⟨rfl, rfl⟩

/-- C2 counterexample: a 200 response whose envelope has `status.code != "ok"`
makes the call RETURN the object `{"error": message, "status": status}` to
the caller — no typed failure is raised, contrary to the claim. -/
theorem C2_counterexample_normalizer_returns_value :
    handle_response 200 "/api/v3/topics/"
        (some (J.obj [("status", J.obj [("code", J.str "error"),
                                        ("message", J.str "boom")])]))
      = .ok (J.obj [("error", J.str "boom"),
                    ("status", J.obj [("code", J.str "error"),
                                      ("message", J.str "boom")])]) :=
  rfl

/-- C2 (amended): for every 2xx response whose decoded body is an object with a
`status` object whose code is not `"ok"`, the normalizer returns to the caller
the error-describing object `{"error": status.message or "Unknown error",
"status": status}` — it does not raise a typed failure. -/
theorem C2_amended_normalizer_returns_error_object (statusCode : Int) (endpoint : String)
    (fields statusFields : Dict)
    (h2xx : 200 ≤ statusCode ∧ statusCode < 300)
    (hstatus : dictLookup fields "status" = some (J.obj statusFields))
    (hcode : optEq (dictLookup statusFields "code") (J.str "ok") = false) :
    handle_response statusCode endpoint (some (J.obj fields))
      = .ok (J.obj [("error", dictGetD statusFields "message" (J.str "Unknown error")),
                    ("status", J.obj statusFields)]) := by
  obtain ⟨hlo, hhi⟩ := h2xx
  have h401 : ¬ (statusCode = 401) := by omega
  have h403 : ¬ (statusCode = 403) := by omega
  have h404 : ¬ (statusCode = 404) := by omega
  have h429 : ¬ (statusCode = 429) := by omega
  have h400 : ¬ (statusCode ≥ 400) := by omega
  simp [handle_response, h401, h403, h404, h429, h400, parse_response,
        dictContains, dictGetD, hstatus, hcode, Except.bind]

/-- C2 witness: the amended theorem applied at HTTP 200 with the envelope
`{"status": {"code": "error", "message": "boom"}}`. -/
theorem C2_amended_witness :
    handle_response 200 "/api/v3/topics/"
        (some (J.obj [("status", J.obj [("code", J.str "error"),
                                        ("message", J.str "boom")])]))
      = .ok (J.obj [("error", J.str "boom"),
                    ("status", J.obj [("code", J.str "error"),
                                      ("message", J.str "boom")])]) :=
  C2_amended_normalizer_returns_error_object 200 "/api/v3/topics/"
    [("status", J.obj [("code", J.str "error"), ("message", J.str "boom")])]
    [("code", J.str "error"), ("message", J.str "boom")]
    (by omega) rfl rfl

/-- C4: for HTTP status 401, 403, 404 and 429 the classifier raises
`AuthenticationError`, `PrivilegeError`, `ResourceNotFoundError` and
`RateLimitError` respectively, whatever the body holds (even an unparseable
one): the status checks at client.py lines 83-90 precede any body access. -/
theorem C4_status_code_takes_precedence (endpoint : String) (body : Option J) :
    handle_response 401 endpoint body
      = .error (.nodebb (.authenticationError "Invalid or missing authentication token")) ∧
    handle_response 403 endpoint body
      = .error (.nodebb (.privilegeError "Insufficient privileges for this operation")) ∧
    handle_response 404 endpoint body
      = .error (.nodebb (.resourceNotFoundError ("Resource not found: " ++ endpoint))) ∧
    handle_response 429 endpoint body
      = .error (.nodebb (.rateLimitError "Rate limit exceeded" none)) :=
  ⟨rfl, rfl, rfl, rfl⟩

/-- C5: whenever the decoded body is an object whose `status` field is an
object with code `"ok"`, `parse_response` returns the body's `response`
value, defaulting to the empty object when that field is absent. -/
theorem C5_parse_response_unwraps_ok (fields statusFields : Dict)
    (hstatus : dictLookup fields "status" = some (J.obj statusFields))
    (hcode : dictLookup statusFields "code" = some (J.str "ok")) :
    parse_response (J.obj fields) = dictGetD fields "response" (J.obj []) := by
  simp [parse_response, dictContains, dictGetD, hstatus, hcode, optEq, J.beq]

/-- C5 witness: an `ok` envelope with payload `7` unwraps to `7`. -/
theorem C5_witness :
    parse_response (J.obj [("status", J.obj [("code", J.str "ok")]),
                           ("response", J.num 7)])
      = J.num 7 :=
  C5_parse_response_unwraps_ok
    [("status", J.obj [("code", J.str "ok")]), ("response", J.num 7)]
    [("code", J.str "ok")] rfl rfl

/-- C3: the claim says every master-mode write body gets `_uid` injected
without mutating the caller's dict.  Evaluating the embedded code at the
failing input: under a validated master configuration (uid 5) the
`auth_mode` is `master`, yet `WriteAPI.create_topic` posts its body through
the raw `httpx` client (write.py line 103), bypassing
`prepare_request_body`, so the outgoing JSON carries no `_uid` — whereas
the transport wrapper's body preparation on the same payload would have
produced the body with `_uid = 5` appended. -/
theorem C3_create_topic_skips_uid_injection :
    NodeBBConfig.auth_type cfgMasterUid5 = "master" ∧
    (create_topic_request cfgMasterUid5 "" 1 "T" "hello" none none).json
      = [("cid", J.num 1), ("title", J.str "T"), ("content", J.str "hello")] ∧
    dictContains (create_topic_request cfgMasterUid5 "" 1 "T" "hello" none none).json "_uid"
      = false ∧
    ((prepare_request_body storeCreateTopic (some 0) cfgMasterUid5).1).read
        ((prepare_request_body storeCreateTopic (some 0) cfgMasterUid5).2)
      = [("cid", J.num 1), ("title", J.str "T"), ("content", J.str "hello"),
         ("_uid", J.num 5)] :=
  ⟨rfl, rfl, rfl, rfl⟩

/-- C6: the descriptor list of `get_tool_definitions` and the dispatch table
of `ToolExecutor._build_method_map` name exactly the same 46 tools, each
exactly once on either side. -/
theorem C6_registry_completeness :
    get_tool_definitions_names.Nodup ∧ method_map_names.Nodup ∧
    List.Perm get_tool_definitions_names method_map_names := by
  refine ⟨by decide, by decide, by decide⟩

/-- C7 counterexample: body-raised errors do NOT all propagate unchanged.
`execute("get_forum_updates", {})` binds fine (the tool takes no
parameters), both read sub-calls are issued, and then `topics[:10]`
(tools.py line 1320, outside any `try`) raises `TypeError` on the malformed
`topics` payload — which the `except TypeError` of `execute` (tools.py
lines 1113-1114) converts into the invalid-arguments `ValueError`, after
two transport calls were already made. -/
theorem C7_counterexample_body_typeerror_converted :
    ToolExecutor.execute bodiesWithForumUpdates "get_forum_updates" []
      = (["/api/unread", "/api/notifications"],
         .error (.valueError ("Invalid arguments for tool get_forum_updates: " ++
           "object is not subscriptable"))) :=
  rfl

/-- C7 (amended): for every registered tool, when binding `args` as keyword
parameters fails, `execute` raises the invalid-arguments `ValueError` and
performs no transport call; when binding succeeds, a typed `NodeBBError`
raised by the body propagates unchanged, but a `TypeError` raised by the
body is also converted to the invalid-arguments `ValueError` by the same
`except TypeError` clause (keeping whatever transport calls the body
already made); in particular `execute("create_topic", {"cid": 1,
"title": "T"})`, which misses the required `content`, fails as a binding
error with no transport call, for every possible body behaviour. -/
theorem C7_execute_binding_errors :
    (∀ (bodies : ToolBodies) (name : String) (sig : ToolSig) (args : Dict),
        lookupTool name = some sig →
        bindsOk sig (dictKeys args) = false →
        ToolExecutor.execute bodies name args
          = ([], .error (.valueError ("Invalid arguments for tool " ++ name ++
              ": " ++ "unexpected or missing keyword argument")))) ∧
    (∀ (bodies : ToolBodies) (name : String) (sig : ToolSig) (args : Dict)
        (calls : List String) (e : NBError),
        lookupTool name = some sig →
        bindsOk sig (dictKeys args) = true →
        bodies name args = (calls, .error (.nodebb e)) →
        ToolExecutor.execute bodies name args = (calls, .error (.nodebb e))) ∧
    (∀ (bodies : ToolBodies) (name : String) (sig : ToolSig) (args : Dict)
        (calls : List String) (e : String),
        lookupTool name = some sig →
        bindsOk sig (dictKeys args) = true →
        bodies name args = (calls, .error (.typeError e)) →
        ToolExecutor.execute bodies name args
          = (calls, .error (.valueError ("Invalid arguments for tool " ++ name ++
              ": " ++ e)))) ∧
    (∀ bodies : ToolBodies,
        ToolExecutor.execute bodies "create_topic" [("cid", J.num 1), ("title", J.str "T")]
          = ([], .error (.valueError ("Invalid arguments for tool create_topic: " ++
              "unexpected or missing keyword argument")))) := by
  refine ⟨?_, ?_, ?_, ?_⟩
  · intro bodies name sig args hlookup hbind
    simp [ToolExecutor.execute, call_with_kwargs, hlookup, hbind]
  · intro bodies name sig args calls e hlookup hbind hbody
    simp [ToolExecutor.execute, call_with_kwargs, hlookup, hbind, hbody]
  · intro bodies name sig args calls e hlookup hbind hbody
    simp [ToolExecutor.execute, call_with_kwargs, hlookup, hbind, hbody]
  · intro bodies
    have hlookup : lookupTool "create_topic"
        = some ⟨["cid", "title", "content"], ["tags", "timestamp"]⟩ := rfl
    have hbind : bindsOk ⟨["cid", "title", "content"], ["tags", "timestamp"]⟩
        (dictKeys [("cid", J.num 1), ("title", J.str "T")]) = false := rfl
    simp [ToolExecutor.execute, call_with_kwargs, hlookup, hbind]

/-- C7 witness: the missing-`content` call evaluated with a concrete stub
body: no transport call, invalid-arguments failure. -/
theorem C7_witness :
    ToolExecutor.execute (fun _ _ => ([], Except.ok J.null)) "create_topic"
        [("cid", J.num 1), ("title", J.str "T")]
      = ([], .error (.valueError ("Invalid arguments for tool create_topic: " ++
          "unexpected or missing keyword argument"))) :=
  C7_execute_binding_errors.2.2.2 (fun _ _ => ([], Except.ok J.null))

/-- C8: the claim (and the docstrings of `NodeBBClient.__init__` and
`ConfigurationError`) says a master token without a uid fails validation
with `ConfigurationError`; evaluating the embedded `validate` at that
configuration shows the code raises plain `ValueError` instead, and in
particular no `ConfigurationError` with any message. -/
theorem C8_validate_raises_valueerror :
    NodeBBConfig.validate cfgMasterNoUid
      = .error (.valueError "uid is required when using master_token") ∧
    ∀ message : String, NodeBBConfig.validate cfgMasterNoUid
      ≠ .error (.nodebb (.configurationError message)) := by
  refine ⟨rfl, fun message h => ?_⟩
  rw [show NodeBBConfig.validate cfgMasterNoUid
        = .error (.valueError "uid is required when using master_token") from rfl] at h
  exact absurd (Except.error.inj h) (by intro h2; cases h2)

/-- C9 counterexample: when the configuration endpoint answers with a dict
lacking `csrf_token`, the first invocation completes successfully (returning
`""`) after one GET, but nothing is cached: the second invocation issues
another GET, so the two calls make two network calls, not at most one. -/
theorem C9_counterexample_refetches_when_untruthy :
    (get_csrf_token { csrf_token := J.null } (J.obj [])).network_calls = 1 ∧
    (get_csrf_token { csrf_token := J.null } (J.obj [])).value = J.str "" ∧
    (get_csrf_token (get_csrf_token { csrf_token := J.null } (J.obj [])).state
        (J.obj [])).network_calls = 1 :=
  ⟨rfl, rfl, rfl⟩

/-- C9 (amended): given that the first invocation returned a truthy
(non-empty) token, every later invocation is served from the cache: it
issues no GET, returns the same token, and leaves the cached state
unchanged (the cache is terminal). -/
theorem C9_amended_cached_after_truthy_token (st : AuthState) (r1 r2 : J)
    (h : truthy (get_csrf_token st r1).value = true) :
    (get_csrf_token (get_csrf_token st r1).state r2).network_calls = 0 ∧
    (get_csrf_token (get_csrf_token st r1).state r2).value
      = (get_csrf_token st r1).value ∧
    (get_csrf_token (get_csrf_token st r1).state r2).state
      = (get_csrf_token st r1).state := by
  unfold get_csrf_token at h ⊢
  by_cases hc : truthy st.csrf_token
  · simp [hc]
  · simp only [hc, Bool.false_eq_true, if_false] at h ⊢
    cases r1 with
    | obj fields =>
      by_cases hk : dictContains fields "csrf_token"
      · simp only [hk, if_true] at h ⊢
        simp [h]
      · simp only [hk, Bool.false_eq_true, if_false] at h ⊢
        simp [truthy] at h
    | null => simp [truthy] at h
    | bool b => simp [truthy] at h
    | num n => simp [truthy] at h
    | str s => simp [truthy] at h
    | arr elems => simp [truthy] at h

/-- C9 witness: the amended theorem applied to an uncached client whose first
fetch yields `{"csrf_token": "tok"}` and whose (never-issued) second fetch
would yield `{}`. -/
theorem C9_amended_witness :
    (get_csrf_token (get_csrf_token { csrf_token := J.null }
        (J.obj [("csrf_token", J.str "tok")])).state (J.obj [])).network_calls = 0 ∧
    (get_csrf_token (get_csrf_token { csrf_token := J.null }
        (J.obj [("csrf_token", J.str "tok")])).state (J.obj [])).value
      = (get_csrf_token { csrf_token := J.null }
          (J.obj [("csrf_token", J.str "tok")])).value ∧
    (get_csrf_token (get_csrf_token { csrf_token := J.null }
        (J.obj [("csrf_token", J.str "tok")])).state (J.obj [])).state
      = (get_csrf_token { csrf_token := J.null }
          (J.obj [("csrf_token", J.str "tok")])).state :=
  C9_amended_cached_after_truthy_token { csrf_token := J.null }
    (J.obj [("csrf_token", J.str "tok")]) (J.obj []) rfl

/-- C10 counterexample: under a configuration with both tokens set (uid 7)
the auth mode is `master` and the Authorization header carries the USER
token, yet the JSON write body `create_topic` sends — a write call under
`auth_mode == master` — carries no `_uid`: not EVERY JSON write body gets
the injection the claim asserts. -/
theorem C10_counterexample_raw_write_no_uid :
    NodeBBConfig.auth_type cfgBothTokens = "master" ∧
    headerLookup (build_headers cfgBothTokens) "Authorization"
      = some ("Bearer " ++ "utok") ∧
    dictContains (create_topic_request cfgBothTokens "" 1 "T" "hello" none none).json "_uid"
      = false :=
  ⟨rfl, rfl, rfl⟩

/-- C10 (amended): with both tokens configured (and a uid), the derived auth
mode is `master` and every JSON write body prepared by the transport
wrapper (`prepare_request_body`, used by `HTTPClient.post`/`put`/`delete`)
gets `_uid = uid` set — while the writes issued through the raw `httpx`
client, such as `create_topic`, send their body without `_uid` — yet the
Authorization header carries the USER token: the bearer identity and the
injected acting identity come from different credentials. -/
theorem C10_user_token_header_master_body (config : NodeBBConfig)
    (utok mtok : String) (u : Int)
    (hu : config.user_token = some utok) (hut : utok ≠ "")
    (hm : config.master_token = some mtok) (hmt : mtok ≠ "")
    (huid : config.uid = some u) :
    NodeBBConfig.auth_type config = "master" ∧
    headerLookup (build_headers config) "Authorization" = some ("Bearer " ++ utok) ∧
    (∀ (s : Store) (r : Nat),
      ((prepare_request_body s (some r) config).1).read
          ((prepare_request_body s (some r) config).2)
        = dictSet (s.read r) "_uid" (J.num u)) ∧
    (∀ (csrf : String) (cid : Int) (title content : String),
      dictContains (create_topic_request config csrf cid title content none none).json "_uid"
        = false) := by
  have hmt2 : strTruthy config.master_token = true := by simp [strTruthy, hm, hmt]
  have hut2 : strTruthy config.user_token = true := by simp [strTruthy, hu, hut]
  refine ⟨?_, ?_, ?_, ?_⟩
  · simp [NodeBBConfig.auth_type, hmt2]
  · simp [build_headers, headerLookup, strTruthy, hu, hut]
  · intro s r
    exact prepare_request_body_master_read s r config u hmt2 huid
  · intro csrf cid title content
    rfl

/-- C10 witness: the dual-credential behaviour evaluated at a concrete
configuration, a concrete caller dict, and a concrete raw write. -/
theorem C10_witness :
    NodeBBConfig.auth_type cfgBothTokens = "master" ∧
    headerLookup (build_headers cfgBothTokens) "Authorization"
      = some ("Bearer " ++ "utok") ∧
    ((prepare_request_body storeCreateTopic (some 0) cfgBothTokens).1).read
        ((prepare_request_body storeCreateTopic (some 0) cfgBothTokens).2)
      = dictSet (storeCreateTopic.read 0) "_uid" (J.num 7) ∧
    dictContains (create_topic_request cfgBothTokens "tok" 2 "S" "world" none none).json "_uid"
      = false :=
  ⟨(C10_user_token_header_master_body cfgBothTokens "utok" "mtok" 7
      rfl (by decide) rfl (by decide) rfl).1,
   (C10_user_token_header_master_body cfgBothTokens "utok" "mtok" 7
      rfl (by decide) rfl (by decide) rfl).2.1,
   (C10_user_token_header_master_body cfgBothTokens "utok" "mtok" 7
      rfl (by decide) rfl (by decide) rfl).2.2.1 storeCreateTopic 0,
   (C10_user_token_header_master_body cfgBothTokens "utok" "mtok" 7
      rfl (by decide) rfl (by decide) rfl).2.2.2 "tok" 2 "S" "world"⟩

end NodeBB
